import Mathlib

/-!
Shallow embedding of the SciTrace dataset-synchronization engine.

The Python source invokes external `datalad` and `git` commands through
`subprocess.run` and inspects the filesystem through `os.path`.  We model the
external world as a pure environment `Env`: a function from an invocation
(argument vector plus working directory) to a `CmdResult`, together with a
path-existence oracle.  Each embedded operation returns its Python result
together with the ordered list of invocations it performed (its trace), so
that properties such as "no write command is invoked" can be stated exactly.

Sources embedded here:
 * `src/scitrace/routes/api/dataflow_api.py`, `save_all_changes`
 * `src/scitrace/services/git_operations.py`, `restore_file_to_commit`,
   `check_file_exists_in_commit`, `get_detailed_git_log`
 * `src/scitrace/services/metadata_operations.py`, `create_dataflow_from_dataset`
-/

namespace SciTrace

/-- Result of one external command, mirroring Python's `CompletedProcess`
fields that the source reads (`returncode`, `stdout`, `stderr`). -/
structure CmdResult where
  returncode : Int
  stdout : String
  stderr : String
deriving DecidableEq, Repr

/-- One external command invocation: the argument vector passed to
`subprocess.run` and the working directory (`cwd=`). -/
structure Invocation where
  argv : List String
  cwd : String
deriving DecidableEq, Repr

/-- The external world: what each command invocation returns, and which
filesystem paths exist (`os.path.exists`). -/
structure Env where
  run : Invocation → CmdResult
  pathExists : String → Bool

/-! ### Python string primitives

The Lean core `String.trim` / `String.splitOn` are implemented via
well-founded recursion on byte positions and do not reduce inside the
kernel, so concrete witnesses could not be checked by `decide`.  We
therefore implement the Python primitives the source uses (`str.strip`,
`str.split`, the substring test `in`, `str.startswith` / `str.endswith`)
structurally over the character list of the string. -/

/-- Whether `pre` is a prefix of `l`, character by character. -/
def charPrefix : List Char → List Char → Bool
  | [], _ => true
  | _ :: _, [] => false
  | a :: as, b :: bs => a == b && charPrefix as bs

/-- Python `str.strip()`: drop leading and trailing whitespace. -/
def pyStrip (s : String) : String :=
  ⟨((s.data.dropWhile Char.isWhitespace).reverse.dropWhile Char.isWhitespace).reverse⟩

/-- Splitting worker: scan `rest`, cutting at each occurrence of the
(non-empty) separator `sep`; `acc` holds the current chunk reversed.  The
fuel argument makes the recursion structural; each step consumes at least
one character, so fuel `rest.length + 1` never runs out. -/
def pySplitAux (sep : List Char) : Nat → List Char → List Char → List (List Char)
  | 0, rest, acc => [acc.reverse ++ rest]
  | _ + 1, [], acc => [acc.reverse]
  | fuel + 1, c :: cs, acc =>
    if charPrefix sep (c :: cs) then
      acc.reverse :: pySplitAux sep fuel (List.drop sep.length (c :: cs)) []
    else
      pySplitAux sep fuel cs (c :: acc)

/-- Python `s.split(sep)` for a non-empty separator (agrees with Lean's
`String.splitOn` there); for the empty separator we return `[s]` like
`String.splitOn`, a case the source never exercises. -/
def pySplit (s sep : String) : List String :=
  if sep = "" then [s]
  else (pySplitAux sep.data (s.data.length + 1) s.data []).map List.asString

/-- Python's substring test `pat in s` (for the non-empty literal patterns
used by the source). -/
def containsSub (s pat : String) : Bool :=
  (pySplit s pat).length > 1

/-- Python `s.startswith (pre)`. -/
def pyStartsWith (s pre : String) : Bool :=
  charPrefix pre.data s.data

/-- Python `s.endswith (suf)`. -/
def pyEndsWith (s suf : String) : Bool :=
  charPrefix suf.data.reverse s.data.reverse

/-- `os.path.join a b` for the cases exercised by the source: `b` absolute
wins; otherwise a single separator is inserted unless `a` already ends with
one or is empty. -/
def osPathJoin (a b : String) : String :=
  if pyStartsWith b "/" then b
  else if pyEndsWith a "/" || a = "" then a ++ b
  else a ++ "/" ++ b

/-- An invocation that mutates the dataset (a `datalad save`, `git add`,
`git commit` or `git checkout`), as opposed to a read-only status/log query. -/
def isWriteInvocation (inv : Invocation) : Bool :=
  match inv.argv with
  | "datalad" :: "save" :: _ => true
  | "git" :: "add" :: _ => true
  | "git" :: "commit" :: _ => true
  | "git" :: "checkout" :: _ => true
  | _ => false

/-! ## ChangeSetCommitter: `save_all_changes` (dataflow_api.py) -/

/-- The JSON response of `save_all_changes`: `ok` is a response with
`'success': True` (message, optional `output` field, optional `warning`
field, `save_attempts`); `err` is an error response with its HTTP status. -/
inductive SaveResponse where
  | ok (message : String) (output : Option String) (warning : Option String)
      (save_attempts : List String)
  | err (httpStatus : Nat) (error : String) (save_attempts : List String)
deriving DecidableEq, Repr

/-- The `datalad status` invocation at the dataset root. -/
def statusInv (dataset_path : String) : Invocation :=
  ⟨["datalad", "status"], dataset_path⟩

/-- The recursive save invocation (`datalad save -r -m msg`) at the root. -/
def recursiveSaveInv (dataset_path commit_message : String) : Invocation :=
  ⟨["datalad", "save", "-r", "-m", commit_message], dataset_path⟩

/-- The flat save invocation (`datalad save -m msg`) at the given directory. -/
def flatSaveInv (cwd commit_message : String) : Invocation :=
  ⟨["datalad", "save", "-m", commit_message], cwd⟩

/-- Parsing of the status report for modified nested datasets: lines
containing both `modified:` and `(dataset)` yield the text between those
markers, stripped (source lines 440-446). -/
def parseSubdatasetChanges (stdout : String) : List String :=
  (((pySplit (pyStrip stdout) "\n").filter
      (fun line => containsSub line "modified:" && containsSub line "(dataset)")).map
    (fun line =>
      pyStrip ((pySplit ((pySplit line "modified:").getD 1 "") "(dataset)").getD 0 "")))

/-- Approach 3 of `save_all_changes` (source lines 448-463): for each modified
subdataset, if its path exists try `datalad save` from inside it; on failure
try saving the subdataset reference from the parent.  Returns the attempt-log
entries and the trace of invocations, in order. -/
def subdatasetSaves (env : Env) (dataset_path commit_message : String) :
    List String → List String × List Invocation
  | [] => ([], [])
  | sub :: rest =>
    let restRes := subdatasetSaves env dataset_path commit_message rest
    let subPath := osPathJoin dataset_path sub
    if env.pathExists subPath then
      let innerInv := flatSaveInv subPath commit_message
      let innerRes := env.run innerInv
      if innerRes.returncode = 0 then
        (("Subdataset " ++ sub ++ " save: SUCCESS") :: restRes.1, innerInv :: restRes.2)
      else
        let refInv : Invocation :=
          ⟨["datalad", "save", "-m", commit_message, sub], dataset_path⟩
        let refRes := env.run refInv
        if refRes.returncode = 0 then
          (("Subdataset " ++ sub ++ " reference save: SUCCESS") :: restRes.1,
           innerInv :: refInv :: restRes.2)
        else
          (("Subdataset " ++ sub ++ " save: FAILED") :: restRes.1,
           innerInv :: refInv :: restRes.2)
    else
      restRes

/-- `save_all_changes` (source lines 384-507), for a dataflow whose project
has the given dataset path.  Returns the JSON response together with the
ordered trace of external invocations performed. -/
def save_all_changes (env : Env) (dataset_path commit_message : String) :
    SaveResponse × List Invocation :=
  let status := env.run (statusInv dataset_path)
  if status.returncode ≠ 0 then
    (.err 500 ("Failed to check dataset status: " ++ status.stderr) [],
     [statusInv dataset_path])
  else if pyStrip status.stdout = "" then
    (.ok "No changes to save" none none [], [statusInv dataset_path])
  else
    let recInv := recursiveSaveInv dataset_path commit_message
    let recRes := env.run recInv
    if recRes.returncode = 0 then
      (.ok "All changes have been saved to DataLad" (some recRes.stdout) none
         ["Recursive save: SUCCESS"],
       [statusInv dataset_path, recInv])
    else
      let attempts1 := ["Recursive save: FAILED - " ++ recRes.stderr]
      let flatInv := flatSaveInv dataset_path commit_message
      let flatRes := env.run flatInv
      if flatRes.returncode = 0 then
        (.ok "All changes have been saved to DataLad" (some flatRes.stdout) none
           (attempts1 ++ ["Regular save: SUCCESS"]),
         [statusInv dataset_path, recInv, flatInv])
      else
        let attempts2 := attempts1 ++ ["Regular save: FAILED - " ++ flatRes.stderr]
        let subs := parseSubdatasetChanges status.stdout
        let subResult := subdatasetSaves env dataset_path commit_message subs
        let attempts3 := attempts2 ++ subResult.1
        let baseTrace := [statusInv dataset_path, recInv, flatInv] ++ subResult.2
        if containsSub status.stdout "r4" then
          let addInv : Invocation := ⟨["git", "add", "r4"], dataset_path⟩
          let addRes := env.run addInv
          if addRes.returncode = 0 then
            let commitInv : Invocation :=
              ⟨["git", "commit", "-m",
                "Force save subdataset reference: " ++ commit_message], dataset_path⟩
            let commitRes := env.run commitInv
            if commitRes.returncode = 0 then
              (.ok "All changes have been saved to DataLad" (some "No output available")
                 none (attempts3 ++ ["Force git add/commit for r4: SUCCESS"]),
               baseTrace ++ [addInv, commitInv])
            else
              (.ok ("Some changes may not have been saved due to persistent " ++
                    "subdataset issues. The dataset should be usable.")
                 none (some "Persistent r4 subdataset changes detected")
                 (attempts3 ++
                   ["Force git add/commit for r4: FAILED - " ++ commitRes.stderr]),
               baseTrace ++ [addInv, commitInv])
          else
            (.ok ("Some changes may not have been saved due to persistent " ++
                  "subdataset issues. The dataset should be usable.")
               none (some "Persistent r4 subdataset changes detected")
               (attempts3 ++
                 ["Force git add/commit for r4: FAILED - " ++ addRes.stderr]),
             baseTrace ++ [addInv])
        else
          (.ok "All changes have been saved to DataLad" (some "No output available")
             none attempts3, baseTrace)

/-! ## FileRestorer: `restore_file_to_commit` (git_operations.py) -/

/-- The success dictionary returned by `restore_file_to_commit`. -/
structure RestoreResult where
  success : Bool
  message : String
  commit_hash : String
  file_path : String
deriving DecidableEq, Repr

/-- Outcome of `restore_file_to_commit`: the success dictionary, or a raised
`DatasetError` / `GitOperationError` with its message. -/
inductive RestoreOutcome where
  | ok (r : RestoreResult)
  | datasetError (msg : String)
  | gitError (msg : String)
deriving DecidableEq, Repr

/-- The `git show hash:path` probe used to test file existence in a commit. -/
def showInv (dataset_path file_path commit_hash : String) : Invocation :=
  ⟨["git", "show", commit_hash ++ ":" ++ file_path], dataset_path⟩

/-- `check_file_exists_in_commit` (source lines 284-306): true iff the
dataset path exists and `git show hash:path` exits zero.  Also returns the
trace of invocations performed. -/
def check_file_exists_in_commit (env : Env) (dataset_path file_path commit_hash : String) :
    Bool × List Invocation :=
  if env.pathExists dataset_path then
    let inv := showInv dataset_path file_path commit_hash
    ((env.run inv).returncode == 0, [inv])
  else
    (false, [])

/-- `restore_file_to_commit` (source lines 200-282).  The `print` warnings
on failed `git add` / `git commit` / `datalad save` have no effect on the
result and are not modelled; the trace records every invocation in order. -/
def restore_file_to_commit (env : Env) (dataset_path file_path commit_hash : String)
    (commit_message : Option String) : RestoreOutcome × List Invocation :=
  if ¬ env.pathExists dataset_path then
    (.datasetError ("Dataset path does not exist: " ++ dataset_path), [])
  else
    let check := check_file_exists_in_commit env dataset_path file_path commit_hash
    if ¬ check.1 then
      (.gitError ("File " ++ file_path ++ " does not exist in commit " ++ commit_hash),
       check.2)
    else
      let checkoutInv : Invocation :=
        ⟨["git", "checkout", commit_hash, "--", file_path], dataset_path⟩
      let res := env.run checkoutInv
      let t1 := check.2 ++ [checkoutInv]
      if res.returncode ≠ 0 then
        let error_msg :=
          if res.stderr ≠ "" then res.stderr
          else if res.stdout ≠ "" then res.stdout
          else "Unknown error"
        (.gitError ("Failed to restore file " ++ file_path ++ " from commit " ++
           commit_hash ++ ": " ++ error_msg), t1)
      else
        let restored_file_path := osPathJoin dataset_path file_path
        if ¬ env.pathExists restored_file_path then
          (.gitError ("File " ++ file_path ++ " was not restored to " ++
             restored_file_path), t1)
        else
          let addInv : Invocation := ⟨["git", "add", file_path], dataset_path⟩
          let _addRes := env.run addInv
          let gitStatusInv : Invocation := ⟨["git", "status", "--porcelain"], dataset_path⟩
          let statusRes := env.run gitStatusInv
          let commit_msg := commit_message.getD
            ("Restore " ++ file_path ++ " from commit " ++ commit_hash)
          let t2 := t1 ++ [addInv, gitStatusInv]
          let t3 :=
            if pyStrip statusRes.stdout = "" then t2
            else
              let commitInv : Invocation :=
                ⟨["git", "commit", "-m", commit_msg], dataset_path⟩
              let _commitRes := env.run commitInv
              t2 ++ [commitInv]
          let t4 :=
            if env.pathExists (osPathJoin dataset_path ".datalad") then
              let dataladInv : Invocation :=
                ⟨["datalad", "save", "-m", commit_msg], dataset_path⟩
              let _dataladRes := env.run dataladInv
              t3 ++ [dataladInv]
            else t3
          (.ok { success := true,
                 message := "File " ++ file_path ++ " restored from commit " ++ commit_hash,
                 commit_hash := commit_hash,
                 file_path := file_path }, t4)

/-! ## Commit history: `get_detailed_git_log` (git_operations.py) -/

/-- One parsed commit record from the detailed log (the `CommitRecord` of the
spec).  The display-only fields `formatted_date` / `relative_date` derived
from the wall clock are not modelled; the raw ISO date string is kept. -/
structure DetailedCommit where
  full_hash : String
  short_hash : String
  author_name : String
  author_email : String
  date : String
  message : String
  body : String
deriving DecidableEq, Repr

/-- The detailed-log invocation (source lines 88-93). -/
def detailedLogInv (dataset_path : String) (limit : Nat) : Invocation :=
  ⟨["git", "log", "--pretty=format:%H|%h|%an|%ae|%ad|%s|%b", "--date=iso",
    "-n", toString limit], dataset_path⟩

/-- Parse one line of the detailed log by splitting on `|` (source lines
100-109): lines with fewer than six parts are dropped, the seventh part (the
body) defaults to the empty string. -/
def parseDetailedLine (line : String) : Option DetailedCommit :=
  let parts := pySplit line "|"
  if 6 ≤ parts.length then
    some { full_hash := parts.getD 0 "",
           short_hash := parts.getD 1 "",
           author_name := parts.getD 2 "",
           author_email := parts.getD 3 "",
           date := parts.getD 4 "",
           message := parts.getD 5 "",
           body := if 6 < parts.length then parts.getD 6 "" else "" }
  else none

/-- `get_detailed_git_log` (source lines 69-135): raises `DatasetError` if
the dataset path is missing, `GitOperationError` if the log command fails;
otherwise parses the stripped output line by line, skipping blank lines. -/
def get_detailed_git_log (env : Env) (dataset_path : String) (limit : Nat) :
    Except String (List DetailedCommit) :=
  if ¬ env.pathExists dataset_path then
    .error ("Dataset path does not exist: " ++ dataset_path)
  else
    let res := env.run (detailedLogInv dataset_path limit)
    if res.returncode ≠ 0 then
      .error ("Failed to get detailed git log: " ++ res.stderr)
    else
      .ok (((pySplit (pyStrip res.stdout) "\n").filter
              (fun line => pyStrip line != "")).filterMap parseDetailedLine)

/-! ## WorkflowGraphSynthesizer: `create_dataflow_from_dataset`
(metadata_operations.py)

`create_dataflow_from_dataset` consults two collaborators:
`file_ops.get_file_tree(dataset_path)` (the list of top-level tree items,
each with its `type`, `name`, `path` and `children`) and
`file_ops.get_stage_files(dataset_path, name)` (whose `metadata` carries the
tracked/untracked/deleted counts).  Both walk the filesystem and git, so they
enter the embedding as part of the environment `DataflowEnv`. -/

/-- A child entry of a top-level tree item; only its `type` is read. -/
structure TreeChild where
  type : String
deriving DecidableEq, Repr

/-- A top-level item of `get_file_tree`'s result, with the fields read by
`create_dataflow_from_dataset`. -/
structure TreeItem where
  type : String
  name : String
  path : String
  children : List TreeChild
deriving DecidableEq, Repr

/-- The `metadata` counts of `get_stage_files`' result. -/
structure StageMeta where
  tracked_files : Nat
  untracked_files : Nat
  deleted_files : Nat
deriving DecidableEq, Repr

/-- Environment for graph synthesis: whether the dataset path exists, the
file tree, and the per-stage metadata (`none` models `get_stage_files`
returning `None`). -/
structure DataflowEnv where
  pathExists : Bool
  file_tree : List TreeItem
  stage_files : String → Option StageMeta

/-- A directory-type table entry: color, type tag and description. -/
structure DirType where
  color : String
  type : String
  description : String
deriving DecidableEq, Repr

/-- The `directory_types` table (source lines 173-179). -/
def directory_types : List (String × DirType) :=
  [("raw_data", ⟨"#87CEEB", "raw_data", "Raw data files"⟩),
   ("preprocessed", ⟨"#90EE90", "preprocessed", "Preprocessed data files"⟩),
   ("scripts", ⟨"#4CAF50", "scripts", "Analysis and processing scripts"⟩),
   ("results", ⟨"#FFA07A", "results", "Final results and outputs"⟩),
   ("plots", ⟨"#DDA0DD", "plots", "Generated visualizations"⟩)]

/-- The `missing_stages` table (source lines 254-258); Python dict iteration
follows insertion order. -/
def missing_stages : List (String × DirType) :=
  [("scripts", ⟨"#4CAF50", "scripts", "Analysis and processing scripts"⟩),
   ("results", ⟨"#FFA07A", "results", "Final results and outputs"⟩),
   ("plots", ⟨"#DDA0DD", "plots", "Generated visualizations"⟩)]

/-- A workflow-graph node.  Fields that some node kinds do not carry in the
Python dict (`tracked_files`, `untracked_files`, `deleted_files`,
`has_untracked`, `has_deleted`) are `Option`s, `none` meaning the key is
absent. -/
structure DataflowNode where
  id : Nat
  label : String
  type : String
  path : String
  color : String
  description : String
  file_count : Nat
  tracked_files : Option Nat
  untracked_files : Option Nat
  deleted_files : Option Nat
  has_untracked : Option Bool
  has_deleted : Option Bool
  is_central : Bool
deriving DecidableEq, Repr

/-- A workflow-graph edge; `fromId`/`toId` model the Python `from`/`to` keys,
`arrows`, `label` and `color` are carried verbatim. -/
structure DataflowEdge where
  fromId : Nat
  toId : Nat
  arrows : String
  label : String
  color : String
deriving DecidableEq, Repr

/-- The node/edge lists of the synthesized graph (the `metadata` block of the
Python result only repeats lengths and a wall-clock timestamp and is not
modelled). -/
structure Dataflow where
  nodes : List DataflowNode
  edges : List DataflowEdge
deriving DecidableEq, Repr

/-- Python ordered-dict insertion: overwriting an existing key keeps its
position, a new key is appended. -/
def dictInsert (d : List (String × Nat)) (k : String) (v : Nat) :
    List (String × Nat) :=
  if d.any (fun p => p.1 == k) then
    d.map (fun p => if p.1 == k then (k, v) else p)
  else d ++ [(k, v)]

/-- The status label of a stage node (source lines 221-232). -/
def stageLabel (name : String) (file_count untracked_count deleted_count : Nat) :
    String :=
  let status_parts :=
    (if file_count > 0 then [toString file_count ++ " files"] else []) ++
    (if untracked_count > 0 then [toString untracked_count ++ " untracked"] else []) ++
    (if deleted_count > 0 then [toString deleted_count ++ " deleted"] else [])
  if status_parts ≠ [] then
    name ++ "\n(" ++ String.intercalate ", " status_parts ++ ")"
  else
    name ++ "\n(0 files)"

/-- The node built for an existing stage directory (source lines 202-248):
counts come from the children list and the stage metadata, and the color
follows the priority deleted > untracked > base color. -/
def mkStageNode (nid : Nat) (item : TreeItem) (dt : DirType)
    (meta : Option StageMeta) : DataflowNode :=
  let file_count := (item.children.filter (fun c => c.type == "file")).length
  let tracked_count := match meta with | some m => m.tracked_files | none => 0
  let untracked_count := match meta with | some m => m.untracked_files | none => 0
  let deleted_count := match meta with | some m => m.deleted_files | none => 0
  let node_color :=
    if deleted_count > 0 then "#FF6B6B"
    else if untracked_count > 0 then "#FFA500"
    else dt.color
  { id := nid,
    label := stageLabel item.name file_count untracked_count deleted_count,
    type := dt.type,
    path := item.path,
    color := node_color,
    description := dt.description,
    file_count := file_count,
    tracked_files := some tracked_count,
    untracked_files := some untracked_count,
    deleted_files := some deleted_count,
    has_untracked := some (untracked_count > 0),
    has_deleted := some (deleted_count > 0),
    is_central := false }

/-- A placeholder node for an absent stage (source lines 262-271). -/
def placeholderNode (nid : Nat) (name : String) (info : DirType) : DataflowNode :=
  { id := nid,
    label := name ++ "\n(0 files)",
    type := info.type,
    path := name ++ "/",
    color := info.color,
    description := info.description,
    file_count := 0,
    tracked_files := none,
    untracked_files := none,
    deleted_files := none,
    has_untracked := none,
    has_deleted := none,
    is_central := false }

/-- First loop of `create_dataflow_from_dataset` (source lines 198-251):
walk the file tree left to right, creating a node and a `directory_nodes`
entry for each directory whose name is in `directory_types`.  `acc`, `dn`
and `nid` accumulate the node list, the ordered dict and the id counter. -/
def existingStageNodes (env : DataflowEnv) :
    List TreeItem → List DataflowNode → List (String × Nat) → Nat →
    List DataflowNode × List (String × Nat) × Nat
  | [], acc, dn, nid => (acc, dn, nid)
  | item :: rest, acc, dn, nid =>
    if item.type == "directory" then
      match directory_types.lookup item.name with
      | some dt =>
        let node := mkStageNode nid item dt (env.stage_files item.name)
        existingStageNodes env rest (acc ++ [node]) (dictInsert dn item.name nid) (nid + 1)
      | none => existingStageNodes env rest acc dn nid
    else existingStageNodes env rest acc dn nid

/-- Second loop (source lines 260-274): add a placeholder for each
`missing_stages` entry whose name is not yet a `directory_nodes` key. -/
def addMissingStages :
    List (String × DirType) → List DataflowNode → List (String × Nat) → Nat →
    List DataflowNode × List (String × Nat) × Nat
  | [], acc, dn, nid => (acc, dn, nid)
  | (name, info) :: rest, acc, dn, nid =>
    if dn.any (fun p => p.1 == name) then addMissingStages rest acc dn nid
    else
      addMissingStages rest (acc ++ [placeholderNode nid name info])
        (dn ++ [(name, nid)]) (nid + 1)

/-- The fallback "basic spider web" (source lines 288-313), built when only
the central node exists: one node and one root edge per `basic_dirs` entry. -/
def basicSpiderWeb : List String → Nat → List DataflowNode × List DataflowEdge
  | [], _ => ([], [])
  | name :: rest, nid =>
    let dir_info := (directory_types.lookup name).getD
      ⟨"#87CEEB", "raw_data", name ++ " directory"⟩
    let node : DataflowNode :=
      { id := nid,
        label := name ++ "\n(0 files)",
        type := dir_info.type,
        path := name ++ "/",
        color := dir_info.color,
        description := dir_info.description,
        file_count := 0,
        tracked_files := none,
        untracked_files := none,
        deleted_files := none,
        has_untracked := none,
        has_deleted := none,
        is_central := false }
    let edge : DataflowEdge :=
      { fromId := 1, toId := nid, arrows := "to", label := "contains", color := "#666" }
    let restRes := basicSpiderWeb rest (nid + 1)
    (node :: restRes.1, edge :: restRes.2)

/-- The central "Dataset Root" node (source lines 182-191). -/
def centralNode (dataset_path : String) : DataflowNode :=
  { id := 1,
    label := "Dataset Root",
    type := "dataset_root",
    path := dataset_path,
    color := "#4CAF50",
    description := "Root of the research dataset",
    file_count := 0,
    tracked_files := none,
    untracked_files := none,
    deleted_files := none,
    has_untracked := none,
    has_deleted := none,
    is_central := true }

/-- `create_dataflow_from_dataset` (source lines 145-334): central node,
existing-directory nodes, missing-stage placeholders, root-to-stage edges in
`directory_nodes` order, and the basic spider web when only the central node
exists. -/
def create_dataflow_from_dataset (env : DataflowEnv) (dataset_path : String) :
    Except String Dataflow :=
  if ¬ env.pathExists then
    .error ("Dataset path does not exist: " ++ dataset_path)
  else
    let step1 := existingStageNodes env env.file_tree [centralNode dataset_path] [] 2
    let step2 := addMissingStages missing_stages step1.1 step1.2.1 step1.2.2
    let edges := step2.2.1.map (fun p =>
      ({ fromId := 1, toId := p.2, arrows := "to", label := "contains",
         color := "#666" } : DataflowEdge))
    if step2.1.length == 1 then
      let basic := basicSpiderWeb ["raw_data", "preprocessed", "scripts", "results", "plots"]
        step2.2.2
      .ok { nodes := step2.1 ++ basic.1, edges := edges ++ basic.2 }
    else
      .ok { nodes := step2.1, edges := edges }

/-! ## Helper lemmas -/

lemma statusInv_ne_flatSaveInv (p q m : String) : statusInv p ≠ flatSaveInv q m := by
  simp [statusInv, flatSaveInv]

lemma recursiveSaveInv_ne_flatSaveInv (p q m m' : String) :
    recursiveSaveInv p m ≠ flatSaveInv q m' := by
  simp [recursiveSaveInv, flatSaveInv]

/-- Every invocation traced by the per-subdataset stage is a `datalad`
command, and none of them is the top-level flat save provided no parsed
subdataset path coincides with the dataset root. -/
lemma subdatasetSaves_trace_spec (env : Env) (p m : String) :
    ∀ subs : List String, (∀ s ∈ subs, osPathJoin p s ≠ p) →
      ∀ inv ∈ (subdatasetSaves env p m subs).2,
        inv ≠ flatSaveInv p m ∧ inv.argv.head? = some "datalad"
  | [], _, inv, hmem => by simp [subdatasetSaves] at hmem
  | sub :: rest, hjoin, inv, hmem => by
    have hrest := subdatasetSaves_trace_spec env p m rest
      (fun s hs => hjoin s (List.mem_cons_of_mem _ hs))
    have hne : osPathJoin p sub ≠ p := hjoin sub (List.mem_cons_self _ _)
    have hinner : flatSaveInv (osPathJoin p sub) m ≠ flatSaveInv p m := by
      simp only [flatSaveInv, ne_eq, Invocation.mk.injEq, not_and]
      exact fun _ => hne
    have hinnerHead : (flatSaveInv (osPathJoin p sub) m).argv.head? = some "datalad" := rfl
    have href : (⟨["datalad", "save", "-m", m, sub], p⟩ : Invocation) ≠ flatSaveInv p m := by
      simp [flatSaveInv]
    simp only [subdatasetSaves] at hmem
    split at hmem
    · split at hmem
      · rcases List.mem_cons.mp hmem with h | h
        · exact h ▸ ⟨hinner, hinnerHead⟩
        · exact hrest inv h
      · split at hmem
        · rcases List.mem_cons.mp hmem with h | h
          · exact h ▸ ⟨hinner, hinnerHead⟩
          · rcases List.mem_cons.mp h with h' | h'
            · exact h' ▸ ⟨href, rfl⟩
            · exact hrest inv h'
        · rcases List.mem_cons.mp hmem with h | h
          · exact h ▸ ⟨hinner, hinnerHead⟩
          · rcases List.mem_cons.mp h with h' | h'
            · exact h' ▸ ⟨href, rfl⟩
            · exact hrest inv h'
    · exact hrest inv hmem

/-! ## C1 -/

/-- C1: when the status query succeeds with empty (stripped) output,
`save_all_changes` returns the `'success': True` response `'No changes to
save'`, its trace is exactly the single status query, and in particular no
write command (`datalad save`, `git add`, `git commit`, `git checkout`) is
invoked. -/
theorem save_all_changes_no_pending_readonly
    (env : Env) (p m : String)
    (hrc : (env.run (statusInv p)).returncode = 0)
    (hempty : pyStrip (env.run (statusInv p)).stdout = "") :
    (save_all_changes env p m).1 = .ok "No changes to save" none none [] ∧
    (save_all_changes env p m).2 = [statusInv p] ∧
    (save_all_changes env p m).2.all (fun inv => !(isWriteInvocation inv)) = true := by
  simp only [statusInv] at hrc hempty
  unfold save_all_changes
  simp [statusInv, hrc, hempty, isWriteInvocation]

/-- A world with a clean dataset: the status query succeeds with empty
output. -/
def cleanEnv : Env :=
  { run := fun inv => if inv = statusInv "/ds" then ⟨0, "", ""⟩ else ⟨1, "", "unused"⟩,
    pathExists := fun _ => true }

theorem save_all_changes_no_pending_readonly_witness :
    (save_all_changes cleanEnv "/ds" "msg").1 = .ok "No changes to save" none none [] ∧
    (save_all_changes cleanEnv "/ds" "msg").2 = [statusInv "/ds"] ∧
    (save_all_changes cleanEnv "/ds" "msg").2.all (fun inv => !(isWriteInvocation inv)) = true :=
  save_all_changes_no_pending_readonly cleanEnv "/ds" "msg" (by decide) (by decide)

/-! ## C2 -/

/-- C2: when the recursive save fails and the flat ("regular") save
succeeds, `save_all_changes` returns the `'success': True` response and its
attempt log is exactly the two entries, in order: the recursive-stage
failure entry, then the flat-stage success entry. -/
theorem save_all_changes_recursive_fails_flat_succeeds
    (env : Env) (p m : String)
    (hrc : (env.run (statusInv p)).returncode = 0)
    (hne : pyStrip (env.run (statusInv p)).stdout ≠ "")
    (hrec : (env.run (recursiveSaveInv p m)).returncode ≠ 0)
    (hflat : (env.run (flatSaveInv p m)).returncode = 0) :
    (save_all_changes env p m).1 =
      .ok "All changes have been saved to DataLad"
        (some (env.run (flatSaveInv p m)).stdout) none
        ["Recursive save: FAILED - " ++ (env.run (recursiveSaveInv p m)).stderr,
         "Regular save: SUCCESS"] := by
  simp only [statusInv] at hrc hne
  simp only [recursiveSaveInv] at hrec
  simp only [flatSaveInv] at hflat
  unfold save_all_changes
  simp [statusInv, recursiveSaveInv, flatSaveInv, hrc, hne, hrec, hflat]

/-- A world where the recursive save fails but the flat save succeeds. -/
def recFailsFlatOkEnv : Env :=
  { run := fun inv =>
      if inv = statusInv "/ds" then ⟨0, "modified: f", ""⟩
      else if inv = recursiveSaveInv "/ds" "msg" then ⟨1, "", "recursive boom"⟩
      else if inv = flatSaveInv "/ds" "msg" then ⟨0, "saved ok", ""⟩
      else ⟨1, "", "unused"⟩,
    pathExists := fun _ => true }

theorem save_all_changes_recursive_fails_flat_succeeds_witness :
    (save_all_changes recFailsFlatOkEnv "/ds" "msg").1 =
      .ok "All changes have been saved to DataLad" (some "saved ok") none
        ["Recursive save: FAILED - recursive boom", "Regular save: SUCCESS"] :=
  save_all_changes_recursive_fails_flat_succeeds recFailsFlatOkEnv "/ds" "msg"
    (by decide) (by decide) (by decide) (by decide)

/-! ## C3 -/

/-- When the recursive and flat saves both fail, the trace of
`save_all_changes` is: status query, recursive save, flat save, the
per-subdataset invocations, then — only when `'r4'` occurs in the status
output — the forced `git add` (and `git commit` if the add succeeded). -/
lemma save_all_changes_stage3_trace
    (env : Env) (p m : String)
    (hrc : (env.run (statusInv p)).returncode = 0)
    (hne : pyStrip (env.run (statusInv p)).stdout ≠ "")
    (hrec : (env.run (recursiveSaveInv p m)).returncode ≠ 0)
    (hflat : (env.run (flatSaveInv p m)).returncode ≠ 0) :
    (save_all_changes env p m).2 =
      ([statusInv p, recursiveSaveInv p m, flatSaveInv p m] ++
        (subdatasetSaves env p m
          (parseSubdatasetChanges (env.run (statusInv p)).stdout)).2) ++
        (if containsSub (env.run (statusInv p)).stdout "r4" then
          if (env.run ⟨["git", "add", "r4"], p⟩).returncode = 0 then
            [⟨["git", "add", "r4"], p⟩,
             ⟨["git", "commit", "-m", "Force save subdataset reference: " ++ m], p⟩]
          else [⟨["git", "add", "r4"], p⟩]
        else []) := by
  simp only [statusInv] at hrc hne ⊢
  simp only [recursiveSaveInv] at hrec
  simp only [flatSaveInv] at hflat
  unfold save_all_changes
  simp only [statusInv, recursiveSaveInv, flatSaveInv, hrc, hne, hrec, hflat,
    ne_eq, not_true_eq_false, not_false_eq_true, if_true, if_false, ite_true,
    ite_false, ite_not]
  by_cases hr4 : containsSub (env.run ⟨["datalad", "status"], p⟩).stdout "r4"
  · simp only [hr4, if_true, ite_true]
    by_cases hadd : (env.run ⟨["git", "add", "r4"], p⟩).returncode = 0
    · simp only [hadd, if_true, ite_true]
      by_cases hcommit :
          (env.run ⟨["git", "commit", "-m", "Force save subdataset reference: " ++ m],
            p⟩).returncode = 0 <;>
        simp [hcommit, List.append_assoc]
    · simp [hadd, List.append_assoc]
  · simp [hr4]

/-- C3 as stated is false: in the concrete world `r4Env` below, the
recursive and flat saves fail, the per-subunit stage runs (its trace is
non-empty) and the forced stage runs, yet the flat save is never retried —
it appears exactly once in the whole trace, not twice. -/
def r4Env : Env :=
  { run := fun inv =>
      if inv = statusInv "/ds" then ⟨0, " modified: sub1 (dataset)\nr4", ""⟩
      else if inv = recursiveSaveInv "/ds" "m" then ⟨1, "", "recursive boom"⟩
      else if inv = flatSaveInv "/ds" "m" then ⟨1, "", "flat boom"⟩
      else ⟨0, "", ""⟩,
    pathExists := fun _ => true }

/-- C3 counterexample: all the premises of the claim hold in `r4Env` (status
ok and non-empty, recursive save failed, flat save failed, the per-subunit
stage processed a nested unit, the forced stage ran), yet the flat save is
not invoked a second time after the nested units are processed: it occurs
exactly once in the trace, refuting the claimed retry. -/
theorem save_all_changes_flat_retry_counterexample :
    (r4Env.run (statusInv "/ds")).returncode = 0 ∧
    pyStrip (r4Env.run (statusInv "/ds")).stdout ≠ "" ∧
    (r4Env.run (recursiveSaveInv "/ds" "m")).returncode ≠ 0 ∧
    (r4Env.run (flatSaveInv "/ds" "m")).returncode ≠ 0 ∧
    (subdatasetSaves r4Env "/ds" "m"
      (parseSubdatasetChanges (r4Env.run (statusInv "/ds")).stdout)).2 ≠ [] ∧
    (⟨["git", "add", "r4"], "/ds"⟩ : Invocation) ∈ (save_all_changes r4Env "/ds" "m").2 ∧
    ¬(2 ≤ (save_all_changes r4Env "/ds" "m").2.count (flatSaveInv "/ds" "m")) := by
  decide

/-- C3 amended: whenever the per-subunit stage runs (recursive and flat
saves both failed; nested-unit paths do not degenerate to the dataset
root), the flat save is NOT retried after the nested units are processed —
it occurs exactly once in the whole trace — and the cascade proceeds
directly to the forced low-level commit stage, which is entered only when
the literal text `'r4'` occurs in the status output: without it no `git`
command is invoked at all, with it the forced `git add` is invoked. -/
theorem save_all_changes_subunit_stage_no_flat_retry
    (env : Env) (p m : String)
    (hrc : (env.run (statusInv p)).returncode = 0)
    (hne : pyStrip (env.run (statusInv p)).stdout ≠ "")
    (hrec : (env.run (recursiveSaveInv p m)).returncode ≠ 0)
    (hflat : (env.run (flatSaveInv p m)).returncode ≠ 0)
    (hjoin : ∀ s ∈ parseSubdatasetChanges (env.run (statusInv p)).stdout,
      osPathJoin p s ≠ p) :
    (save_all_changes env p m).2.count (flatSaveInv p m) = 1 ∧
    (containsSub (env.run (statusInv p)).stdout "r4" = false →
      (save_all_changes env p m).2.all (fun inv => inv.argv.head? != some "git") = true) ∧
    (containsSub (env.run (statusInv p)).stdout "r4" = true →
      (⟨["git", "add", "r4"], p⟩ : Invocation) ∈ (save_all_changes env p m).2) := by
  have htr := save_all_changes_stage3_trace env p m hrc hne hrec hflat
  have hsub := subdatasetSaves_trace_spec env p m
    (parseSubdatasetChanges (env.run (statusInv p)).stdout) hjoin
  refine ⟨?_, ?_, ?_⟩
  · rw [htr, List.count_append, List.count_append]
    have h1 : ([statusInv p, recursiveSaveInv p m, flatSaveInv p m]).count
        (flatSaveInv p m) = 1 := by
      simp [List.count_cons, statusInv_ne_flatSaveInv p p m,
        recursiveSaveInv_ne_flatSaveInv p p m m]
    have h2 : (subdatasetSaves env p m
        (parseSubdatasetChanges (env.run (statusInv p)).stdout)).2.count
          (flatSaveInv p m) = 0 :=
      List.count_eq_zero.mpr (fun hmem => (hsub _ hmem).1 rfl)
    have h3 : (if containsSub (env.run (statusInv p)).stdout "r4" then
        if (env.run ⟨["git", "add", "r4"], p⟩).returncode = 0 then
          [(⟨["git", "add", "r4"], p⟩ : Invocation),
           ⟨["git", "commit", "-m", "Force save subdataset reference: " ++ m], p⟩]
        else [⟨["git", "add", "r4"], p⟩]
      else []).count (flatSaveInv p m) = 0 := by
      split
      · split <;> simp [List.count_cons, flatSaveInv]
      · rfl
    rw [h1, h2, h3]
  · intro hr4
    rw [htr, hr4]
    simp only [List.all_eq_true]
    intro inv hinv
    rcases List.mem_append.mp hinv with h | h
    · rcases List.mem_append.mp h with h' | h'
      · simp only [List.mem_cons, List.not_mem_nil, or_false] at h'
        rcases h' with rfl | rfl | rfl <;> rfl
      · rw [(hsub inv h').2]
        rfl
    · simp at h
  · intro hr4
    rw [htr, hr4]
    refine List.mem_append.mpr (Or.inr ?_)
    simp only [if_true, ite_true]
    split <;> simp

/-- C3 amended witness: in `r4Env` the hypotheses hold and the flat save is
invoked exactly once. -/
theorem save_all_changes_subunit_stage_no_flat_retry_witness :
    (save_all_changes r4Env "/ds" "m").2.count (flatSaveInv "/ds" "m") = 1 :=
  (save_all_changes_subunit_stage_no_flat_retry r4Env "/ds" "m"
    (by decide) (by decide) (by decide) (by decide) (by decide)).1

/-! ## C4 -/

/-- C4: when the file does not exist in the target revision (the `git show`
probe exits non-zero), `restore_file_to_commit` fails with the
file-not-in-revision error, its trace is exactly the read-only probe, and in
particular no write command is invoked — the working tree, index and
history are untouched. -/
theorem restore_missing_file_fails_before_mutation
    (env : Env) (p f h : String) (msg : Option String)
    (hpath : env.pathExists p = true)
    (hshow : (env.run (showInv p f h)).returncode ≠ 0) :
    (restore_file_to_commit env p f h msg).1 =
      .gitError ("File " ++ f ++ " does not exist in commit " ++ h) ∧
    (restore_file_to_commit env p f h msg).2 = [showInv p f h] ∧
    (restore_file_to_commit env p f h msg).2.all
      (fun inv => !(isWriteInvocation inv)) = true := by
  simp only [showInv] at hshow
  unfold restore_file_to_commit check_file_exists_in_commit
  simp [hpath, hshow, isWriteInvocation, showInv]

/-- A world where the probed file is absent from the revision. -/
def missingFileEnv : Env :=
  { run := fun inv =>
      if inv = showInv "/ds" "data.csv" "abc123" then ⟨128, "", "fatal: path not found"⟩
      else ⟨0, "", ""⟩,
    pathExists := fun _ => true }

theorem restore_missing_file_fails_before_mutation_witness :
    (restore_file_to_commit missingFileEnv "/ds" "data.csv" "abc123" none).1 =
      .gitError "File data.csv does not exist in commit abc123" ∧
    (restore_file_to_commit missingFileEnv "/ds" "data.csv" "abc123" none).2 =
      [showInv "/ds" "data.csv" "abc123"] ∧
    (restore_file_to_commit missingFileEnv "/ds" "data.csv" "abc123" none).2.all
      (fun inv => !(isWriteInvocation inv)) = true :=
  restore_missing_file_fails_before_mutation missingFileEnv "/ds" "data.csv" "abc123"
    none (by decide) (by decide)

/-! ## C5 -/

/-- C5: when the dataset is also a DataLad dataset (`.datalad` exists) and
the final `datalad save` fails, `restore_file_to_commit` still returns the
success result, and its trace shows the earlier materialization
(`git checkout`), staging (`git add`) and plain-VCS commit (`git commit`)
invocations followed by the failing `datalad save` as the last invocation:
nothing is rolled back after the failure. -/
theorem restore_datalad_failure_no_rollback
    (env : Env) (p f h : String) (msg : Option String)
    (hpath : env.pathExists p = true)
    (hshow : (env.run (showInv p f h)).returncode = 0)
    (hchk : (env.run ⟨["git", "checkout", h, "--", f], p⟩).returncode = 0)
    (hver : env.pathExists (osPathJoin p f) = true)
    (hstat : pyStrip (env.run ⟨["git", "status", "--porcelain"], p⟩).stdout ≠ "")
    (hdl : env.pathExists (osPathJoin p ".datalad") = true)
    (hfail : (env.run ⟨["datalad", "save", "-m",
      msg.getD ("Restore " ++ f ++ " from commit " ++ h)], p⟩).returncode ≠ 0) :
    (restore_file_to_commit env p f h msg).1 =
      .ok { success := true,
            message := "File " ++ f ++ " restored from commit " ++ h,
            commit_hash := h, file_path := f } ∧
    (restore_file_to_commit env p f h msg).2 =
      [showInv p f h,
       ⟨["git", "checkout", h, "--", f], p⟩,
       ⟨["git", "add", f], p⟩,
       ⟨["git", "status", "--porcelain"], p⟩,
       ⟨["git", "commit", "-m", msg.getD ("Restore " ++ f ++ " from commit " ++ h)], p⟩,
       ⟨["datalad", "save", "-m", msg.getD ("Restore " ++ f ++ " from commit " ++ h)], p⟩] := by
  simp only [showInv] at hshow
  unfold restore_file_to_commit check_file_exists_in_commit
  simp [hpath, hshow, hchk, hver, hstat, hdl, showInv]

/-- A world where everything succeeds except the final `datalad save`. -/
def dataladFailEnv : Env :=
  { run := fun inv =>
      if inv.argv.head? = some "datalad" then ⟨1, "", "datalad boom"⟩
      else ⟨0, "M data.csv", ""⟩,
    pathExists := fun _ => true }

theorem restore_datalad_failure_no_rollback_witness :
    (restore_file_to_commit dataladFailEnv "/ds" "data.csv" "abc123" (some "restore it")).1 =
      .ok { success := true, message := "File data.csv restored from commit abc123",
            commit_hash := "abc123", file_path := "data.csv" } ∧
    (restore_file_to_commit dataladFailEnv "/ds" "data.csv" "abc123" (some "restore it")).2 =
      [showInv "/ds" "data.csv" "abc123",
       ⟨["git", "checkout", "abc123", "--", "data.csv"], "/ds"⟩,
       ⟨["git", "add", "data.csv"], "/ds"⟩,
       ⟨["git", "status", "--porcelain"], "/ds"⟩,
       ⟨["git", "commit", "-m", "restore it"], "/ds"⟩,
       ⟨["datalad", "save", "-m", "restore it"], "/ds"⟩] :=
  restore_datalad_failure_no_rollback dataladFailEnv "/ds" "data.csv" "abc123"
    (some "restore it") (by decide) (by decide) (by decide) (by decide) (by decide)
    (by decide) (by decide)

/-! ## C10 -/

/-- C10 (implicit): once the precondition check has passed (and the file was
materialized), `restore_file_to_commit` returns the success result even when
the staging command (`git add`) and the plain-VCS commit (`git commit`) both
exit non-zero — those failures are only printed as warnings — so a success
result does not guarantee that a new commit was created. -/
theorem restore_success_despite_add_commit_failures
    (env : Env) (p f h : String) (msg : Option String)
    (hpath : env.pathExists p = true)
    (hshow : (env.run (showInv p f h)).returncode = 0)
    (hchk : (env.run ⟨["git", "checkout", h, "--", f], p⟩).returncode = 0)
    (hver : env.pathExists (osPathJoin p f) = true)
    (hadd : (env.run ⟨["git", "add", f], p⟩).returncode ≠ 0)
    (hstat : pyStrip (env.run ⟨["git", "status", "--porcelain"], p⟩).stdout ≠ "")
    (hcommit : (env.run ⟨["git", "commit", "-m",
      msg.getD ("Restore " ++ f ++ " from commit " ++ h)], p⟩).returncode ≠ 0) :
    (restore_file_to_commit env p f h msg).1 =
      .ok { success := true,
            message := "File " ++ f ++ " restored from commit " ++ h,
            commit_hash := h, file_path := f } := by
  simp only [showInv] at hshow
  unfold restore_file_to_commit check_file_exists_in_commit
  simp [hpath, hshow, hchk, hver, hstat, showInv]

/-- A world where staging and committing both fail. -/
def addCommitFailEnv : Env :=
  { run := fun inv =>
      if inv = ⟨["git", "add", "data.csv"], "/ds"⟩ then ⟨1, "", "add boom"⟩
      else if inv = ⟨["git", "commit", "-m", "Restore data.csv from commit abc123"],
        "/ds"⟩ then ⟨1, "", "commit boom"⟩
      else ⟨0, "M data.csv", ""⟩,
    pathExists := fun _ => true }

theorem restore_success_despite_add_commit_failures_witness :
    (restore_file_to_commit addCommitFailEnv "/ds" "data.csv" "abc123" none).1 =
      .ok { success := true, message := "File data.csv restored from commit abc123",
            commit_hash := "abc123", file_path := "data.csv" } :=
  restore_success_despite_add_commit_failures addCommitFailEnv "/ds" "data.csv" "abc123"
    none (by decide) (by decide) (by decide) (by decide) (by decide) (by decide)
    (by decide)

/-! ## C9 -/

/-- Parsing well-formed log lines is the identity on the underlying commit
list: no record is dropped, added or reordered. -/
lemma parse_detailed_lines_eq {lines : List String} {cs : List DetailedCommit}
    (hfmt : List.Forall₂ (fun (line : String) (c : DetailedCommit) =>
      pyStrip line ≠ "" ∧
      pySplit line "|" = [c.full_hash, c.short_hash, c.author_name, c.author_email,
        c.date, c.message, c.body]) lines cs) :
    (lines.filter (fun line => pyStrip line != "")).filterMap parseDetailedLine = cs := by
  induction hfmt with
  | nil => rfl
  | @cons a b l1 l2 hab _ ih =>
    obtain ⟨hne, hsplit⟩ := hab
    rw [List.filter_cons_of_pos (by simpa using hne)]
    rw [List.filterMap_cons]
    have hparse : parseDetailedLine a = some b := by
      unfold parseDetailedLine
      rw [hsplit]
      rfl
    rw [hparse, ih]

/-- C9: for a dataset-wide detailed history query with limit `n` against a
history of at least `n` commits (the log command's output being one
well-formed `|`-delimited line per commit, newest first, as the
`--pretty=format:` contract guarantees), `get_detailed_git_log` returns
exactly the first `n` commit records, in the same newest-first order — the
sequence is not reordered, truncated or extended downstream of the log
command. -/
theorem get_detailed_git_log_order_and_count
    (env : Env) (p : String) (n : Nat) (history : List DetailedCommit)
    (lines : List String)
    (hpath : env.pathExists p = true)
    (hrc : (env.run (detailedLogInv p n)).returncode = 0)
    (hsplit : pySplit (pyStrip (env.run (detailedLogInv p n)).stdout) "\n" = lines)
    (hfmt : List.Forall₂ (fun (line : String) (c : DetailedCommit) =>
      pyStrip line ≠ "" ∧
      pySplit line "|" = [c.full_hash, c.short_hash, c.author_name, c.author_email,
        c.date, c.message, c.body]) lines (history.take n))
    (hn : n ≤ history.length) :
    get_detailed_git_log env p n = .ok (history.take n) ∧
    (history.take n).length = n := by
  constructor
  · simp only [detailedLogInv] at hrc hsplit
    unfold get_detailed_git_log
    simp only [detailedLogInv, hpath, hrc, hsplit, Bool.not_true, if_false,
      ite_false, ite_true, not_true_eq_false, Bool.true_eq_false, ite_not,
      if_true, ne_eq, not_false_eq_true]
    rw [parse_detailed_lines_eq hfmt]
  · rw [List.length_take]
    exact Nat.min_eq_left hn

/-- A five-commit history, newest first. -/
def gitLogHistory : List DetailedCommit :=
  [⟨"a1", "a", "Al", "al@x", "2024-01-05 10:00:00 +0000", "fifth", ""⟩,
   ⟨"b2", "b", "Bo", "bo@x", "2024-01-04 10:00:00 +0000", "fourth", ""⟩,
   ⟨"c3", "c", "Cy", "cy@x", "2024-01-03 10:00:00 +0000", "third", ""⟩,
   ⟨"d4", "d", "Da", "da@x", "2024-01-02 10:00:00 +0000", "second", ""⟩,
   ⟨"e5", "e", "Ed", "ed@x", "2024-01-01 10:00:00 +0000", "first", ""⟩]

/-- The log command's output for `gitLogHistory` with limit 3. -/
def gitLogStdout : String :=
  "a1|a|Al|al@x|2024-01-05 10:00:00 +0000|fifth|\n" ++
  "b2|b|Bo|bo@x|2024-01-04 10:00:00 +0000|fourth|\n" ++
  "c3|c|Cy|cy@x|2024-01-03 10:00:00 +0000|third|"

/-- A world whose detailed log (limit 3) prints `gitLogStdout`. -/
def gitLogEnv : Env :=
  { run := fun inv =>
      if inv = detailedLogInv "/ds" 3 then ⟨0, gitLogStdout, ""⟩ else ⟨0, "", ""⟩,
    pathExists := fun _ => true }

set_option maxRecDepth 20000 in
theorem get_detailed_git_log_order_and_count_witness :
    get_detailed_git_log gitLogEnv "/ds" 3 = .ok (gitLogHistory.take 3) ∧
    (gitLogHistory.take 3).length = 3 :=
  get_detailed_git_log_order_and_count gitLogEnv "/ds" 3 gitLogHistory
    ["a1|a|Al|al@x|2024-01-05 10:00:00 +0000|fifth|",
     "b2|b|Bo|bo@x|2024-01-04 10:00:00 +0000|fourth|",
     "c3|c|Cy|cy@x|2024-01-03 10:00:00 +0000|third|"]
    (by decide) (by decide) (by decide)
    (List.Forall₂.cons ⟨by decide, by decide⟩
      (List.Forall₂.cons ⟨by decide, by decide⟩
        (List.Forall₂.cons ⟨by decide, by decide⟩ List.Forall₂.nil)))
    (by decide)

/-! ## Graph machinery: the ordered dict and the loop invariant -/

lemma map_keep_of_no_key (k : String) (v : Nat) :
    ∀ d : List (String × Nat), (∀ p ∈ d, p.1 ≠ k) →
      d.map (fun p => if p.1 == k then (k, v) else p) = d
  | [], _ => rfl
  | a :: d, h => by
    have ha : (a.1 == k) = false := by
      simpa using h a (List.mem_cons_self _ _)
    simp only [List.map_cons, ha, Bool.false_eq_true, if_false]
    rw [map_keep_of_no_key k v d (fun p hp => h p (List.mem_cons_of_mem _ hp))]

lemma mapped_vals_sub (k : String) (v : Nat) (d : List (String × Nat)) :
    ∀ x ∈ ((d.map (fun p => if p.1 == k then (k, v) else p)).map Prod.snd),
      x = v ∨ x ∈ d.map Prod.snd := by
  intro x hx
  rw [List.map_map] at hx
  obtain ⟨p, hp, hpx⟩ := List.mem_map.mp hx
  by_cases hpk : p.1 = k
  · left
    rw [← hpx]
    simp [hpk]
  · right
    rw [← hpx]
    simp only [Function.comp_apply]
    rw [if_neg (by simpa using hpk)]
    exact List.mem_map_of_mem _ hp

lemma mapped_vals_nodup (k : String) (v : Nat) :
    ∀ d : List (String × Nat), (d.map Prod.fst).Nodup → (d.map Prod.snd).Nodup →
      (∀ x ∈ d.map Prod.snd, x < v) →
      ((d.map (fun p => if p.1 == k then (k, v) else p)).map Prod.snd).Nodup
  | [], _, _, _ => by simp
  | a :: d, hk, hv, hb => by
    rw [List.map_cons, List.nodup_cons] at hk hv
    have hbtail : ∀ x ∈ d.map Prod.snd, x < v := by
      intro x hx
      exact hb x (by simp [hx])
    have ih := mapped_vals_nodup k v d hk.2 hv.2 hbtail
    simp only [List.map_cons, List.nodup_cons]
    refine ⟨?_, ih⟩
    by_cases hak : a.1 = k
    · have hkeys : ∀ p ∈ d, p.1 ≠ k := by
        intro p hp hpk
        apply hk.1
        rw [hak, ← hpk]
        exact List.mem_map_of_mem _ hp
      rw [map_keep_of_no_key k v d hkeys]
      rw [if_pos (by simpa using hak)]
      intro hmem
      exact absurd (hbtail v hmem) (lt_irrefl v)
    · rw [if_neg (by simpa using hak)]
      intro hmem
      rcases mapped_vals_sub k v d _ hmem with h | h
      · have : a.2 < v := hb a.2 (by simp)
        omega
      · exact hv.1 h

lemma dictInsert_vals_sub (k : String) (v : Nat) (d : List (String × Nat)) :
    ∀ x ∈ (dictInsert d k v).map Prod.snd, x = v ∨ x ∈ d.map Prod.snd := by
  intro x hx
  unfold dictInsert at hx
  split at hx
  · exact mapped_vals_sub k v d x hx
  · rw [List.map_append] at hx
    rcases List.mem_append.mp hx with h | h
    · exact Or.inr h
    · exact Or.inl (by simpa using h)

lemma dictInsert_vals_nodup (k : String) (v : Nat) (d : List (String × Nat))
    (hk : (d.map Prod.fst).Nodup) (hv : (d.map Prod.snd).Nodup)
    (hb : ∀ x ∈ d.map Prod.snd, x < v) :
    ((dictInsert d k v).map Prod.snd).Nodup := by
  unfold dictInsert
  split
  · exact mapped_vals_nodup k v d hk hv hb
  · rw [List.map_append]
    rw [List.nodup_append]
    refine ⟨hv, by simp, ?_⟩
    intro x hx hx'
    simp only [List.map_cons, List.map_nil, List.mem_singleton] at hx'
    exact absurd (hb x hx) (by omega)

lemma dictInsert_keys_cases (k : String) (v : Nat) (d : List (String × Nat)) :
    (dictInsert d k v).map Prod.fst = d.map Prod.fst ∨
    ((dictInsert d k v).map Prod.fst = d.map Prod.fst ++ [k] ∧
      k ∉ d.map Prod.fst) := by
  unfold dictInsert
  split
  · left
    rw [List.map_map]
    apply List.map_congr_left
    intro p _
    by_cases hpk : p.1 = k
    · simp only [Function.comp_apply]
      rw [if_pos (by simpa using hpk)]
      exact hpk.symm
    · simp only [Function.comp_apply]
      rw [if_neg (by simpa using hpk)]
  · right
    refine ⟨by simp, ?_⟩
    intro hmem
    obtain ⟨p, hp, hpk⟩ := List.mem_map.mp hmem
    rename_i hany
    exact hany (List.any_eq_true.mpr ⟨p, hp, beq_iff_eq.mpr hpk⟩)

/-- Invariant maintained by the node-building loops of
`create_dataflow_from_dataset`: ids are `1, 2, …` in node order with the
central node first, the next free id is `nodes + 1`, the `directory_nodes`
dict has distinct keys and distinct values, and each value is the id of a
non-central node already in the list. -/
structure GraphInv (acc : List DataflowNode) (dn : List (String × Nat))
    (nid : Nat) : Prop where
  ids : acc.map (fun n => n.id) = List.range' 1 acc.length
  nid_eq : nid = acc.length + 1
  central : ∃ c rest, acc = c :: rest ∧ c.is_central = true ∧ c.id = 1 ∧
    ∀ n ∈ rest, n.is_central = false
  keys_nodup : (dn.map Prod.fst).Nodup
  vals_nodup : (dn.map Prod.snd).Nodup
  vals_mem : ∀ v ∈ dn.map Prod.snd, ∃ n, n ∈ acc ∧ n.id = v ∧ n.is_central = false

lemma GraphInv.val_lt {acc dn nid} (h : GraphInv acc dn nid) :
    ∀ v ∈ dn.map Prod.snd, v < nid := by
  intro v hv
  obtain ⟨n, hn, hid, _⟩ := h.vals_mem v hv
  have hmem : n.id ∈ acc.map (fun n => n.id) := List.mem_map_of_mem _ hn
  rw [h.ids, List.mem_range'_1] at hmem
  rw [h.nid_eq]
  omega

lemma GraphInv.step {acc dn nid} (h : GraphInv acc dn nid) (node : DataflowNode)
    (hid : node.id = nid) (hc : node.is_central = false) (k : String) :
    GraphInv (acc ++ [node]) (dictInsert dn k nid) (nid + 1) := by
  obtain ⟨c, rest, hacc, hcc, hc1, hrest⟩ := h.central
  refine ⟨?_, ?_, ?_, ?_, ?_, ?_⟩
  · rw [List.map_append, h.ids, List.length_append]
    simp only [List.map_cons, List.map_nil, List.length_cons, List.length_nil]
    rw [hid, h.nid_eq]
    rw [List.range'_concat 1 acc.length]
    simp [Nat.add_comm]
  · simp [h.nid_eq]
  · refine ⟨c, rest ++ [node], by rw [hacc]; rfl, hcc, hc1, ?_⟩
    intro n hn
    rcases List.mem_append.mp hn with h' | h'
    · exact hrest n h'
    · rw [List.mem_singleton.mp h']
      exact hc
  · rcases dictInsert_keys_cases k nid dn with hcase | ⟨hcase, hnotin⟩
    · rw [hcase]; exact h.keys_nodup
    · rw [hcase, List.nodup_append]
      exact ⟨h.keys_nodup, by simp, by
        intro x hx hx'
        rw [List.mem_singleton.mp hx'] at hx
        exact hnotin hx⟩
  · exact dictInsert_vals_nodup k nid dn h.keys_nodup h.vals_nodup h.val_lt
  · intro v hv
    rcases dictInsert_vals_sub k nid dn v hv with rfl | hv'
    · exact ⟨node, List.mem_append_right _ (List.mem_singleton_self _), hid, hc⟩
    · obtain ⟨n, hn, hnid, hnc⟩ := h.vals_mem v hv'
      exact ⟨n, List.mem_append_left _ hn, hnid, hnc⟩

lemma existingStageNodes_inv (env : DataflowEnv) :
    ∀ (items : List TreeItem) (acc : List DataflowNode)
      (dn : List (String × Nat)) (nid : Nat),
      GraphInv acc dn nid →
      GraphInv (existingStageNodes env items acc dn nid).1
        (existingStageNodes env items acc dn nid).2.1
        (existingStageNodes env items acc dn nid).2.2
  | [], acc, dn, nid, h => h
  | item :: rest, acc, dn, nid, h => by
    unfold existingStageNodes
    split
    · cases hlk : directory_types.lookup item.name with
      | some dt =>
        simp only [hlk]
        exact existingStageNodes_inv env rest _ _ _
          (h.step (mkStageNode nid item dt (env.stage_files item.name)) rfl rfl item.name)
      | none =>
        simp only [hlk]
        exact existingStageNodes_inv env rest acc dn nid h
    · exact existingStageNodes_inv env rest acc dn nid h

lemma addMissingStages_inv :
    ∀ (stages : List (String × DirType)) (acc : List DataflowNode)
      (dn : List (String × Nat)) (nid : Nat),
      GraphInv acc dn nid →
      GraphInv (addMissingStages stages acc dn nid).1
        (addMissingStages stages acc dn nid).2.1
        (addMissingStages stages acc dn nid).2.2
  | [], acc, dn, nid, h => h
  | (name, info) :: rest, acc, dn, nid, h => by
    unfold addMissingStages
    split
    · exact addMissingStages_inv rest acc dn nid h
    · rename_i hany
      have hins : dn ++ [(name, nid)] = dictInsert dn name nid := by
        unfold dictInsert
        rw [if_neg hany]
      rw [hins]
      exact addMissingStages_inv rest _ _ _
        (h.step (placeholderNode nid name info) rfl rfl name)

lemma addMissingStages_nodes_prefix :
    ∀ (stages : List (String × DirType)) (acc : List DataflowNode)
      (dn : List (String × Nat)) (nid : Nat),
      ∃ extra, (addMissingStages stages acc dn nid).1 = acc ++ extra
  | [], acc, _, _ => ⟨[], by simp [addMissingStages]⟩
  | (name, info) :: rest, acc, dn, nid => by
    unfold addMissingStages
    split
    · exact addMissingStages_nodes_prefix rest acc dn nid
    · obtain ⟨extra, hex⟩ := addMissingStages_nodes_prefix rest
        (acc ++ [placeholderNode nid name info]) (dn ++ [(name, nid)]) (nid + 1)
      exact ⟨placeholderNode nid name info :: extra, by rw [hex]; simp⟩

lemma addMissingStages_length_mono (stages : List (String × DirType))
    (acc : List DataflowNode) (dn : List (String × Nat)) (nid : Nat) :
    acc.length ≤ (addMissingStages stages acc dn nid).1.length := by
  obtain ⟨extra, hex⟩ := addMissingStages_nodes_prefix stages acc dn nid
  rw [hex]
  simp

/-- After the placeholder loop at least two nodes exist (the central node
plus either an existing `scripts` node or its placeholder), so the
"basic spider web" fallback branch is never taken. -/
lemma step2_length_ge_two (acc : List DataflowNode) (dn : List (String × Nat))
    (nid : Nat) (h : GraphInv acc dn nid) :
    2 ≤ (addMissingStages missing_stages acc dn nid).1.length := by
  obtain ⟨c, rest, hacc, hcc, hc1, hrest⟩ := h.central
  by_cases hs : "scripts" ∈ dn.map Prod.fst
  · obtain ⟨q, hq, hqk⟩ := List.mem_map.mp hs
    obtain ⟨n, hn, _, hnc⟩ := h.vals_mem q.2 (List.mem_map_of_mem _ hq)
    have hne : n ≠ c := by
      intro he
      rw [he, hcc] at hnc
      exact absurd hnc (by decide)
    have hnr : n ∈ rest := by
      rw [hacc] at hn
      rcases List.mem_cons.mp hn with h' | h'
      · exact absurd h' hne
      · exact h'
    have hlen : 2 ≤ acc.length := by
      rw [hacc, List.length_cons]
      have := List.length_pos.mpr (List.ne_nil_of_mem hnr)
      omega
    exact le_trans hlen (addMissingStages_length_mono _ _ _ _)
  · have hcond : ¬(dn.any fun q => q.1 == "scripts") = true := by
      intro hc
      obtain ⟨q, hq, hqe⟩ := List.any_eq_true.mp hc
      exact hs (beq_iff_eq.mp hqe ▸ List.mem_map_of_mem _ hq)
    have hlen1 : 1 ≤ acc.length := by
      rw [hacc, List.length_cons]
      omega
    simp only [missing_stages]
    unfold addMissingStages
    rw [if_neg hcond]
    have := addMissingStages_length_mono
      [("results", ⟨"#FFA07A", "results", "Final results and outputs"⟩),
       ("plots", ⟨"#DDA0DD", "plots", "Generated visualizations"⟩)]
      (acc ++ [placeholderNode nid "scripts"
        ⟨"#4CAF50", "scripts", "Analysis and processing scripts"⟩])
      (dn ++ [("scripts", nid)]) (nid + 1)
    rw [List.length_append] at this
    simp only [List.length_cons, List.length_nil] at this
    omega

lemma graphInv_init (p : String) : GraphInv [centralNode p] [] 2 :=
  ⟨rfl, rfl, ⟨centralNode p, [], rfl, rfl, rfl, by simp⟩, by simp, by simp, by simp⟩

/-- Unpacking a successful synthesis: the dataset path existed, the nodes
are the output of the two loops, and the edges are the `directory_nodes`
entries mapped to root-to-stage edges. -/
lemma create_dataflow_ok_parts (env : DataflowEnv) (p : String) (g : Dataflow)
    (hok : create_dataflow_from_dataset env p = .ok g) :
    env.pathExists = true ∧
    g.nodes = (addMissingStages missing_stages
        (existingStageNodes env env.file_tree [centralNode p] [] 2).1
        (existingStageNodes env env.file_tree [centralNode p] [] 2).2.1
        (existingStageNodes env env.file_tree [centralNode p] [] 2).2.2).1 ∧
    g.edges = (addMissingStages missing_stages
        (existingStageNodes env env.file_tree [centralNode p] [] 2).1
        (existingStageNodes env env.file_tree [centralNode p] [] 2).2.1
        (existingStageNodes env env.file_tree [centralNode p] [] 2).2.2).2.1.map
      (fun q => ({ fromId := 1, toId := q.2, arrows := "to",
                   label := "contains", color := "#666" } : DataflowEdge)) := by
  unfold create_dataflow_from_dataset at hok
  by_cases hpe : env.pathExists = true
  · rw [if_neg (by simp [hpe])] at hok
    have hinv1 := existingStageNodes_inv env env.file_tree [centralNode p] [] 2
      (graphInv_init p)
    have hlen := step2_length_ge_two _ _ _ hinv1
    rw [if_neg (by
      intro hc
      rw [beq_iff_eq] at hc
      omega)] at hok
    have hg := (Except.ok.injEq _ _).mp hok
    exact ⟨hpe, by rw [← hg], by rw [← hg]⟩
  · rw [if_pos (by simpa using hpe)] at hok
    exact absurd hok (by simp)

lemma existingStageNodes_mem (env : DataflowEnv) :
    ∀ (items : List TreeItem) (acc : List DataflowNode) (dn : List (String × Nat))
      (nid : Nat) (n : DataflowNode),
      n ∈ (existingStageNodes env items acc dn nid).1 →
      n ∈ acc ∨ ∃ j it dt, directory_types.lookup it.name = some dt ∧
        n = mkStageNode j it dt (env.stage_files it.name)
  | [], _, _, _, _, h => Or.inl h
  | item :: rest, acc, dn, nid, n, h => by
    unfold existingStageNodes at h
    split at h
    · split at h
      · rename_i dt hlk
        rcases existingStageNodes_mem env rest _ _ _ n h with h' | h'
        · rcases List.mem_append.mp h' with h'' | h''
          · exact Or.inl h''
          · exact Or.inr ⟨nid, item, dt, hlk, List.mem_singleton.mp h''⟩
        · exact Or.inr h'
      · exact existingStageNodes_mem env rest _ _ _ n h
    · exact existingStageNodes_mem env rest _ _ _ n h

lemma addMissingStages_mem :
    ∀ (stages : List (String × DirType)) (acc : List DataflowNode)
      (dn : List (String × Nat)) (nid : Nat) (n : DataflowNode),
      n ∈ (addMissingStages stages acc dn nid).1 →
      n ∈ acc ∨ ∃ j name info, n = placeholderNode j name info
  | [], _, _, _, _, h => Or.inl h
  | (name, info) :: rest, acc, dn, nid, n, h => by
    unfold addMissingStages at h
    split at h
    · exact addMissingStages_mem rest _ _ _ n h
    · rcases addMissingStages_mem rest _ _ _ n h with h' | h'
      · rcases List.mem_append.mp h' with h'' | h''
        · exact Or.inl h''
        · exact Or.inr ⟨nid, name, info, List.mem_singleton.mp h''⟩
      · exact Or.inr h'

lemma lookup_mem_values :
    ∀ (l : List (String × DirType)) (k : String) (v : DirType),
      List.lookup k l = some v → (k, v) ∈ l
  | [], _, _, h => by simp [List.lookup] at h
  | (a, b) :: l, k, v, h => by
    rw [List.lookup] at h
    split at h
    · rename_i hbeq
      rw [Option.some.injEq] at h
      exact h ▸ (beq_iff_eq.mp hbeq ▸ List.mem_cons_self _ _)
    · exact List.mem_cons_of_mem _ (lookup_mem_values l k v h)

/-- In the `directory_types` table the type tag determines the base color:
looking the type back up recovers the entry's color. -/
lemma lookup_type_color (name : String) (dt : DirType)
    (h : directory_types.lookup name = some dt) :
    (directory_types.lookup dt.type).map DirType.color = some dt.color := by
  have hmem := lookup_mem_values directory_types name dt h
  simp only [directory_types, List.mem_cons, List.not_mem_nil, or_false] at hmem
  rcases hmem with h1 | h1 | h1 | h1 | h1 <;>
    (injection h1 with ha hb
     subst hb
     rfl)

/-! ## C7 -/

/-- C7: every synthesized stage node (the nodes carrying status counts)
gets its color by the priority deleted > untracked > clean: a positive
deleted count forces the alert color `#FF6B6B` regardless of the untracked
count, otherwise a positive untracked count gives the warning color
`#FFA500`, otherwise the color is the stage type's base color from the
`directory_types` table. -/
theorem create_dataflow_color_priority (env : DataflowEnv) (p : String) (g : Dataflow)
    (hok : create_dataflow_from_dataset env p = .ok g) :
    ∀ n ∈ g.nodes, ∀ d u, n.deleted_files = some d → n.untracked_files = some u →
      (0 < d → n.color = "#FF6B6B") ∧
      (d = 0 → 0 < u → n.color = "#FFA500") ∧
      (d = 0 → u = 0 →
        (directory_types.lookup n.type).map DirType.color = some n.color) := by
  obtain ⟨hpe, hnodes, hedges⟩ := create_dataflow_ok_parts env p g hok
  intro n hn d u hd hu
  rw [hnodes] at hn
  rcases addMissingStages_mem _ _ _ _ n hn with h1 | ⟨j, name, info, rfl⟩
  · rcases existingStageNodes_mem env _ _ _ _ n h1 with h2 | ⟨j, it, dt, hlk, rfl⟩
    · rw [List.mem_singleton] at h2
      rw [h2] at hd
      simp [centralNode] at hd
    · cases hsf : env.stage_files it.name with
      | none =>
        simp only [mkStageNode, hsf, Option.some.injEq] at hd hu
        subst hd hu
        refine ⟨?_, ?_, ?_⟩
        · intro hdpos
          omega
        · intro _ hupos
          omega
        · intro _ _
          simp only [mkStageNode, hsf]
          rw [if_neg (by omega), if_neg (by omega)]
          exact lookup_type_color it.name dt hlk
      | some mm =>
        simp only [mkStageNode, hsf, Option.some.injEq] at hd hu
        subst hd hu
        refine ⟨?_, ?_, ?_⟩
        · intro hdpos
          simp only [mkStageNode, hsf]
          rw [if_pos hdpos]
        · intro hd0 hupos
          simp only [mkStageNode, hsf]
          rw [if_neg (by omega), if_pos hupos]
        · intro hd0 hu0
          simp only [mkStageNode, hsf]
          rw [if_neg (by omega), if_neg (by omega)]
          exact lookup_type_color it.name dt hlk
  · simp [placeholderNode] at hd

/-- A dataset whose `raw_data` directory has one deleted and one untracked
file (the spec's priority scenario). -/
def deletedEnv : DataflowEnv :=
  { pathExists := true,
    file_tree := [⟨"directory", "raw_data", "/tmp/ds/raw_data", [⟨"file"⟩]⟩],
    stage_files := fun s => if s = "raw_data" then some ⟨0, 1, 1⟩ else none }

/-- The `raw_data` node synthesized for `deletedEnv`. -/
def deletedNode : DataflowNode :=
  mkStageNode 2 ⟨"directory", "raw_data", "/tmp/ds/raw_data", [⟨"file"⟩]⟩
    ⟨"#87CEEB", "raw_data", "Raw data files"⟩ (some ⟨0, 1, 1⟩)

theorem create_dataflow_color_priority_witness :
    deletedNode.color = "#FF6B6B" := by
  have h := create_dataflow_color_priority deletedEnv "/tmp/ds"
    (match create_dataflow_from_dataset deletedEnv "/tmp/ds" with
     | .ok g => g
     | .error _ => ⟨[], []⟩) rfl deletedNode (by decide) 1 1 (by decide) (by decide)
  exact h.1 (by decide)

/-! ## C8 -/

/-- C8: every successfully synthesized graph is a star: exactly one node
carries the central/root flag, node ids are exactly `1, 2, …` in node order
(unique, sequential, root first with id 1), every edge originates at the
root id 1 and targets the id of a non-central stage node, and edge targets
are pairwise distinct, so no node has more than one incoming edge. -/
theorem create_dataflow_star_invariant (env : DataflowEnv) (p : String) (g : Dataflow)
    (hok : create_dataflow_from_dataset env p = .ok g) :
    (g.nodes.filter (fun n => n.is_central)).length = 1 ∧
    g.nodes.map (fun n => n.id) = List.range' 1 g.nodes.length ∧
    (g.nodes.map (fun n => n.id)).Nodup ∧
    g.nodes.head?.map (fun n => (n.is_central, n.id)) = some (true, 1) ∧
    (∀ e ∈ g.edges, e.fromId = 1 ∧ ∃ n, n ∈ g.nodes ∧ n.id = e.toId ∧
      n.is_central = false) ∧
    (g.edges.map (fun e => e.toId)).Nodup := by
  obtain ⟨hpe, hnodes, hedges⟩ := create_dataflow_ok_parts env p g hok
  have hinv := addMissingStages_inv missing_stages _ _ _
    (existingStageNodes_inv env env.file_tree [centralNode p] [] 2 (graphInv_init p))
  rw [← hnodes] at hinv
  obtain ⟨c, rest, hacc, hcc, hc1, hrest⟩ := hinv.central
  refine ⟨?_, hinv.ids, ?_, ?_, ?_, ?_⟩
  · rw [hacc, List.filter_cons_of_pos (by simp [hcc])]
    rw [List.filter_eq_nil_iff.mpr (fun a ha => by simp [hrest a ha])]
    rfl
  · rw [hinv.ids]
    exact List.nodup_range' 1 g.nodes.length
  · rw [hacc]
    simp [hcc, hc1]
  · intro e he
    rw [hedges] at he
    obtain ⟨q, hq, hqe⟩ := List.mem_map.mp he
    obtain ⟨n, hn, hnid, hnc⟩ := hinv.vals_mem q.2 (List.mem_map_of_mem _ hq)
    refine ⟨by rw [← hqe], n, hn, ?_, hnc⟩
    rw [← hqe]
    exact hnid
  · rw [hedges, List.map_map]
    exact hinv.vals_nodup

/-- A dataset with no matching stage directories at all. -/
def starEnv : DataflowEnv :=
  { pathExists := true, file_tree := [], stage_files := fun _ => none }

/-- The graph synthesized for `starEnv`: the root plus the three
placeholders. -/
def starGraph : Dataflow :=
  { nodes :=
      [centralNode "/d",
       placeholderNode 2 "scripts" ⟨"#4CAF50", "scripts", "Analysis and processing scripts"⟩,
       placeholderNode 3 "results" ⟨"#FFA07A", "results", "Final results and outputs"⟩,
       placeholderNode 4 "plots" ⟨"#DDA0DD", "plots", "Generated visualizations"⟩],
    edges :=
      [⟨1, 2, "to", "contains", "#666"⟩,
       ⟨1, 3, "to", "contains", "#666"⟩,
       ⟨1, 4, "to", "contains", "#666"⟩] }

theorem create_dataflow_star_invariant_witness :
    create_dataflow_from_dataset starEnv "/d" = .ok starGraph ∧
    (starGraph.nodes.filter (fun n => n.is_central)).length = 1 ∧
    starGraph.nodes.map (fun n => n.id) = List.range' 1 starGraph.nodes.length ∧
    (starGraph.nodes.map (fun n => n.id)).Nodup ∧
    starGraph.nodes.head?.map (fun n => (n.is_central, n.id)) = some (true, 1) ∧
    (starGraph.edges.map (fun e => e.toId)).Nodup :=
  ⟨rfl,
   (create_dataflow_star_invariant starEnv "/d" starGraph rfl).1,
   (create_dataflow_star_invariant starEnv "/d" starGraph rfl).2.1,
   (create_dataflow_star_invariant starEnv "/d" starGraph rfl).2.2.1,
   (create_dataflow_star_invariant starEnv "/d" starGraph rfl).2.2.2.1,
   (create_dataflow_star_invariant starEnv "/d" starGraph rfl).2.2.2.2.2⟩

/-! ## C6 -/

/-- The spec's scenario: a dataset whose only stage directory is `results`,
holding one tracked and one untracked file; no `plots` (and no `raw_data`,
`preprocessed` or `scripts`) directory. -/
def c6Env : DataflowEnv :=
  { pathExists := true,
    file_tree := [⟨"directory", "results", "/tmp/ds/results", [⟨"file"⟩, ⟨"file"⟩]⟩],
    stage_files := fun s => if s = "results" then some ⟨1, 1, 0⟩ else none }

/-- The graph actually synthesized for `c6Env`. -/
def c6Graph : Dataflow :=
  { nodes :=
      [centralNode "/tmp/ds",
       { id := 2, label := "results\n(2 files, 1 untracked)", type := "results",
         path := "/tmp/ds/results", color := "#FFA500",
         description := "Final results and outputs", file_count := 2,
         tracked_files := some 1, untracked_files := some 1, deleted_files := some 0,
         has_untracked := some true, has_deleted := some false, is_central := false },
       placeholderNode 3 "scripts" ⟨"#4CAF50", "scripts", "Analysis and processing scripts"⟩,
       placeholderNode 4 "plots" ⟨"#DDA0DD", "plots", "Generated visualizations"⟩],
    edges :=
      [⟨1, 2, "to", "contains", "#666"⟩,
       ⟨1, 3, "to", "contains", "#666"⟩,
       ⟨1, 4, "to", "contains", "#666"⟩] }

/-- C6 counterexample: in the spec's own scenario the synthesized graph has
THREE non-root edges (a `scripts` placeholder is emitted besides `plots`),
not two, and the absent well-known stage `raw_data` gets NO placeholder, so
both the claimed edge count and the claimed "every absent well-known stage
gets a placeholder" fail. -/
theorem create_dataflow_placeholder_counterexample :
    create_dataflow_from_dataset c6Env "/tmp/ds" = .ok c6Graph ∧
    c6Graph.edges.length = 3 ∧
    ¬(c6Graph.edges.length = 2) ∧
    (c6Graph.nodes.filter (fun n => n.type == "raw_data")).length = 0 :=
  ⟨rfl, rfl, by decide, rfl⟩

lemma existingStageNodes_keys_sub (env : DataflowEnv) :
    ∀ (items : List TreeItem) (acc : List DataflowNode) (dn : List (String × Nat))
      (nid : Nat) (k : String),
      k ∈ ((existingStageNodes env items acc dn nid).2.1.map Prod.fst) →
      k ∈ dn.map Prod.fst ∨ ∃ it, it ∈ items ∧ it.type = "directory" ∧ it.name = k
  | [], _, _, _, _, h => Or.inl h
  | item :: rest, acc, dn, nid, k, h => by
    unfold existingStageNodes at h
    split at h
    · rename_i htype
      split at h
      · rcases existingStageNodes_keys_sub env rest _ _ _ k h with h' | ⟨it, hit, h1, h2⟩
        · rcases dictInsert_keys_cases item.name nid dn with hc | ⟨hc, _⟩
          · rw [hc] at h'
            exact Or.inl h'
          · rw [hc] at h'
            rcases List.mem_append.mp h' with h'' | h''
            · exact Or.inl h''
            · exact Or.inr ⟨item, List.mem_cons_self _ _, by simpa using htype,
                (List.mem_singleton.mp h'').symm⟩
        · exact Or.inr ⟨it, List.mem_cons_of_mem _ hit, h1, h2⟩
      · rcases existingStageNodes_keys_sub env rest _ _ _ k h with h' | ⟨it, hit, h1, h2⟩
        · exact Or.inl h'
        · exact Or.inr ⟨it, List.mem_cons_of_mem _ hit, h1, h2⟩
    · rcases existingStageNodes_keys_sub env rest _ _ _ k h with h' | ⟨it, hit, h1, h2⟩
      · exact Or.inl h'
      · exact Or.inr ⟨it, List.mem_cons_of_mem _ hit, h1, h2⟩

lemma addMissingStages_places :
    ∀ (stages : List (String × DirType)) (acc : List DataflowNode)
      (dn : List (String × Nat)) (nid : Nat) (s : String) (info : DirType),
      (s, info) ∈ stages → s ∉ dn.map Prod.fst → (stages.map Prod.fst).Nodup →
      ∃ j, placeholderNode j s info ∈ (addMissingStages stages acc dn nid).1
  | [], _, _, _, _, _, h, _, _ => absurd h (List.not_mem_nil _)
  | (name, i0) :: rest, acc, dn, nid, s, info, hmem, hnot, hnd => by
    rw [List.map_cons, List.nodup_cons] at hnd
    rcases List.mem_cons.mp hmem with heq | htail
    · injection heq with h1 h2
      subst h1
      subst h2
      unfold addMissingStages
      rw [if_neg (fun hany => by
        obtain ⟨q, hq, hqe⟩ := List.any_eq_true.mp hany
        exact hnot (beq_iff_eq.mp hqe ▸ List.mem_map_of_mem _ hq))]
      obtain ⟨extra, hex⟩ := addMissingStages_nodes_prefix rest
        (acc ++ [placeholderNode nid s info]) (dn ++ [(s, nid)]) (nid + 1)
      refine ⟨nid, ?_⟩
      rw [hex]
      exact List.mem_append_left _
        (List.mem_append_right _ (List.mem_singleton_self _))
    · have hsname : s ≠ name := by
        intro he
        apply hnd.1
        rw [← he]
        exact List.mem_map.mpr ⟨(s, info), htail, rfl⟩
      unfold addMissingStages
      split
      · exact addMissingStages_places rest acc dn nid s info htail hnot hnd.2
      · apply addMissingStages_places rest _ _ _ s info htail ?_ hnd.2
        rw [List.map_append]
        intro hmm
        rcases List.mem_append.mp hmm with h'' | h''
        · exact hnot h''
        · exact hsname (by simpa using h'')

/-- C6 amended: a placeholder with zero file count is synthesized exactly
for the stage types of the `missing_stages` table — `scripts`, `results`
and `plots` — that have no matching directory in the tree (`raw_data` and
`preprocessed` never get one); and in the spec's scenario the graph
consists of the root, the `results` node with one tracked and one
untracked file, `scripts` AND `plots` placeholders with zero counts, and
exactly THREE non-root edges, all originating at the root. -/
theorem create_dataflow_placeholder_amended (env : DataflowEnv) (p s : String)
    (info : DirType) (g : Dataflow)
    (hmem : (s, info) ∈ missing_stages)
    (hok : create_dataflow_from_dataset env p = .ok g)
    (habsent : ∀ it ∈ env.file_tree, ¬(it.type = "directory" ∧ it.name = s)) :
    0 < g.nodes.countP
      (fun n => n.type == info.type && n.file_count == 0 && !n.is_central) ∧
    create_dataflow_from_dataset c6Env "/tmp/ds" = .ok c6Graph ∧
    c6Graph.nodes.head?.map (fun n => n.is_central) = some true ∧
    (c6Graph.nodes.filter (fun n => n.type == "results")).map
      (fun n => (n.tracked_files, n.untracked_files)) = [(some 1, some 1)] ∧
    (c6Graph.nodes.filter (fun n => n.type == "scripts" || n.type == "plots")).map
      (fun n => n.file_count) = [0, 0] ∧
    (c6Graph.nodes.filter
      (fun n => n.type == "raw_data" || n.type == "preprocessed")).length = 0 ∧
    c6Graph.edges.length = 3 ∧
    c6Graph.edges.all (fun e => e.fromId == 1) = true := by
  obtain ⟨hpe, hnodes, hedges⟩ := create_dataflow_ok_parts env p g hok
  have hkeys : s ∉ ((existingStageNodes env env.file_tree
      [centralNode p] [] 2).2.1.map Prod.fst) := by
    intro hk
    rcases existingStageNodes_keys_sub env env.file_tree _ _ _ s hk with h' | ⟨it, hit, h1, h2⟩
    · simp at h'
    · exact habsent it hit ⟨h1, h2⟩
  obtain ⟨j, hj⟩ := addMissingStages_places missing_stages _ _ _ s info hmem hkeys
    (by decide)
  rw [← hnodes] at hj
  refine ⟨?_, rfl, rfl, by decide, by decide, rfl, rfl, rfl⟩
  exact List.countP_pos_iff.mpr ⟨placeholderNode j s info, hj, by simp [placeholderNode]⟩

theorem create_dataflow_placeholder_amended_witness :
    0 < c6Graph.nodes.countP
      (fun n => n.type == "plots" && n.file_count == 0 && !n.is_central) ∧
    c6Graph.edges.length = 3 ∧
    c6Graph.edges.all (fun e => e.fromId == 1) = true :=
  ⟨(create_dataflow_placeholder_amended c6Env "/tmp/ds" "plots"
      ⟨"#DDA0DD", "plots", "Generated visualizations"⟩ c6Graph
      (by decide) rfl (by decide)).1,
   (create_dataflow_placeholder_amended c6Env "/tmp/ds" "plots"
      ⟨"#DDA0DD", "plots", "Generated visualizations"⟩ c6Graph
      (by decide) rfl (by decide)).2.2.2.2.2.2.1,
   (create_dataflow_placeholder_amended c6Env "/tmp/ds" "plots"
      ⟨"#DDA0DD", "plots", "Generated visualizations"⟩ c6Graph
      (by decide) rfl (by decide)).2.2.2.2.2.2.2⟩

end SciTrace
